import Mathlib

/-!
Verification of the slide-presentation generator core: document model,
normalization of persisted documents, the generation pipeline, editor
mutations, image-search fallback and the persistence adapter, embedded
shallowly from the TypeScript sources.
-/

namespace SlideForge

/-! ## JavaScript-style defaulting helpers

`jsOr s d` models the JS expression `s || d` on strings (the empty string is
falsy).  `jsOrOpt o d` models `x || d` where `x` may also be absent
(`undefined`/`null`).  `jsOrRatOpt a d` models `x || d` on a possibly absent
number (`0` is falsy). -/

def jsOr (s d : String) : String :=
  if s = "" then d else s

def jsOrOpt (o : Option String) (d : String) : String :=
  match o with
  | none => d
  | some s => jsOr s d

def jsOrRatOpt (o : Option ℚ) (d : ℚ) : ℚ :=
  match o with
  | none => d
  | some x => if x = 0 then d else x

/-- JS `String.prototype.trim`: strip leading and trailing whitespace. -/
def jsTrim (s : String) : String :=
  String.mk (((s.toList.dropWhile Char.isWhitespace).reverse.dropWhile
    Char.isWhitespace).reverse)

/-! ## Typed document model (types.ts) -/

/-- TextStyle from types.ts: font data plus an optional text shadow. -/
structure TextStyle where
  fontSize : String
  fontFamily : String
  color : String
  bold : Bool
  italic : Bool
  underline : Bool
  textShadow : Option String
deriving DecidableEq, Repr

/-- The Background union from types.ts: color, gradient or image.  The
image variant carries optional opacity and blur, exactly as in the source. -/
inductive Background where
  | color (value : String)
  | gradient (color1 color2 : String) (angle : ℚ)
  | image (value : String) (opacity blur : Option ℚ)
deriving DecidableEq, Repr

/-- A single slide, as in types.ts. -/
structure Slide where
  id : String
  title : String
  content : List String
  background : Background
  titleStyle : TextStyle
  contentStyle : TextStyle
deriving DecidableEq, Repr

/-- A presentation, as in types.ts. -/
structure Presentation where
  id : String
  userId : String
  title : String
  slides : List Slide
  theme : String
  createdAt : String
deriving DecidableEq, Repr

/-- defaultTitleStyle from the editor and create pages (identical constants). -/
def defaultTitleStyle : TextStyle :=
  { fontSize := "48px", fontFamily := "Arial", color := "#000000",
    bold := true, italic := false, underline := false, textShadow := none }

/-- defaultContentStyle from the editor and create pages. -/
def defaultContentStyle : TextStyle :=
  { fontSize := "24px", fontFamily := "Arial", color := "#333333",
    bold := false, italic := false, underline := false, textShadow := none }

/-! ## Raw (possibly malformed) persisted shapes

These model the `any`-typed values the editor's cleaning pass receives:
every field may be absent, and the slide list itself may fail
`Array.isArray`. -/

/-- A raw text style object: each field optionally present. -/
structure RawStyle where
  fontSize : Option String
  fontFamily : Option String
  color : Option String
  bold : Option Bool
  italic : Option Bool
  underline : Option Bool
  textShadow : Option String
deriving DecidableEq, Repr

/-- A raw background value.  `absent` covers a missing/falsy background or
one whose `type` field is not a string; `obj` is any object with a string
`type` tag and arbitrarily present sub-fields. -/
inductive RawBackground where
  | absent
  | obj (type : String) (value : Option String) (color1 color2 : Option String)
      (angle : Option ℚ) (opacity blur : Option ℚ)
deriving DecidableEq, Repr

/-- A raw `content` field: either not an array, or an array of strings. -/
inductive RawContentF where
  | notArr
  | arr (items : List String)
deriving DecidableEq, Repr

/-- A raw slide object with every field possibly missing or malformed. -/
structure RawSlide where
  id : Option String
  title : Option String
  content : RawContentF
  background : RawBackground
  titleStyle : Option RawStyle
  contentStyle : Option RawStyle
deriving DecidableEq, Repr

/-- A raw `slides` field: either not an array, or an array of raw slides. -/
inductive RawSlidesF where
  | notArr
  | arr (slides : List RawSlide)
deriving DecidableEq, Repr

/-- A raw presentation object as loaded from storage. -/
structure RawPres where
  id : Option String
  userId : Option String
  title : Option String
  slides : RawSlidesF
  theme : Option String
  createdAt : Option String
deriving DecidableEq, Repr

/-! ## The editor's document normalizer (EditorPage load effect)

Embeds the `cleanedSlides` pass: each slide gets defaults for missing or
malformed fields, the background is post-fixed per variant, and the text
styles are shallow-merged over the named defaults. -/

/-- Background selection and per-variant post-fix from the editor load pass:
a missing background or one without a string `type` becomes white Color;
an image variant gets `opacity ?? 1` and `blur ?? 0`; a gradient variant
gets `color1 || "#ffffff"`, `color2 || "#bbbbbb"` and `angle || 90`. -/
def cleanBackground (b : RawBackground) : RawBackground :=
  match b with
  | RawBackground.absent =>
      RawBackground.obj "color" (some "#ffffff") none none none none none
  | RawBackground.obj t v c1 c2 a o bl =>
      if t = "image" then
        RawBackground.obj t v c1 c2 a (some (o.getD 1)) (some (bl.getD 0))
      else if t = "gradient" then
        RawBackground.obj t v (some (jsOrOpt c1 "#ffffff"))
          (some (jsOrOpt c2 "#bbbbbb")) (some (jsOrRatOpt a 90)) o bl
      else
        RawBackground.obj t v c1 c2 a o bl

/-- Shallow merge of a stored raw style over a named default, modelling
the spread expression in the editor: present fields win, absent fields
come from the default.  The defaults carry no textShadow. -/
def mergeStyleRaw (d : TextStyle) (o : Option RawStyle) : RawStyle :=
  match o with
  | none =>
      { fontSize := some d.fontSize, fontFamily := some d.fontFamily,
        color := some d.color, bold := some d.bold, italic := some d.italic,
        underline := some d.underline, textShadow := d.textShadow }
  | some r =>
      { fontSize := some (r.fontSize.getD d.fontSize),
        fontFamily := some (r.fontFamily.getD d.fontFamily),
        color := some (r.color.getD d.color),
        bold := some (r.bold.getD d.bold),
        italic := some (r.italic.getD d.italic),
        underline := some (r.underline.getD d.underline),
        textShadow := r.textShadow }

/-- The per-slide cleaning step of the editor load pass.  `now` stands for
the `Date.now()` prefix and `index` is the position used for synthesized
ids. -/
def cleanSlide (now : String) (index : Nat) (s : RawSlide) : RawSlide :=
  { id := some (jsOrOpt s.id (now ++ "-" ++ toString index)),
    title := some (jsOrOpt s.title "Untitled Slide"),
    content := RawContentF.arr
      (match s.content with
       | RawContentF.arr items => items
       | RawContentF.notArr => []),
    background := cleanBackground s.background,
    titleStyle := some (mergeStyleRaw defaultTitleStyle s.titleStyle),
    contentStyle := some (mergeStyleRaw defaultContentStyle s.contentStyle) }

/-- The indexed map over the slide array, `slides.map((slide, index) => ...)`. -/
def cleanSlidesFrom (now : String) : Nat → List RawSlide → List RawSlide
  | _, [] => []
  | i, s :: rest => cleanSlide now i s :: cleanSlidesFrom now (i + 1) rest

/-- The whole normalization applied to a loaded presentation object: the
`slides` field is coerced to an array and cleaned, all other fields are
spread through unchanged. -/
def normalizeRaw (now : String) (p : RawPres) : RawPres :=
  { p with
    slides := RawSlidesF.arr
      (cleanSlidesFrom now 0
        (match p.slides with
         | RawSlidesF.arr l => l
         | RawSlidesF.notArr => [])) }

/-- The load path guarded by the null check: a missing document is left
missing, anything else is normalized. -/
def normalizeDoc (now : String) (x : Option RawPres) : Option RawPres :=
  x.map (normalizeRaw now)

/-! ## Slide-content generator service (geminiService.ts)

The external call is abstracted by its observable outcome: either the call
threw (network failure or unparsable response text) or it produced a parsed
JSON value, which is an array of title/content pairs or some non-array. -/

/-- One generated title/content pair; both fields may be missing in a
malformed response element. -/
structure GenPair where
  title : Option String
  content : Option (List String)
deriving DecidableEq, Repr

/-- A successfully parsed JSON response: an array of pairs or a non-array. -/
inductive JsonV where
  | arrV (pairs : List GenPair)
  | nonArr
deriving DecidableEq, Repr

/-- Outcome of the generate-content call: thrown (request failure or
JSON.parse failure) or parsed. -/
inductive GenResponse where
  | threw
  | parsed (v : JsonV)
deriving DecidableEq, Repr

/-- The k-th looped mock slide of getMockSlides (loop variable i = k + 2). -/
def mockTailSlide (topic : String) (k : Nat) : GenPair :=
  { title := some ("Topic " ++ (toString (k + 1) ++ (" of " ++ topic))),
    content := some
      ["This is bullet point 1 for slide " ++ toString (k + 2) ++ ".",
       "This is bullet point 2 discussing a key aspect.",
       "And a final concluding point for this slide."] }

/-- getMockSlides: one intro slide, then slides for i = 2 .. slideCount. -/
def getMockSlides (topic : String) (slideCount : Nat) : List GenPair :=
  { title := some ("Introduction to " ++ topic),
    content := some ["By SlideForge AI", "An AI-powered presentation"] }
  :: (List.range (slideCount - 1)).map (mockTailSlide topic)

/-- The k-th looped mock slide of getMockSlidesFromText. -/
def mockTextTailSlide (k : Nat) : GenPair :=
  { title := some ("Key Point " ++ toString (k + 1)),
    content := some
      ["This slide discusses a key point from the text.",
       "Further details and analysis would go here."] }

/-- getMockSlidesFromText: a summary slide, then slides for i = 2 .. slideCount. -/
def getMockSlidesFromText (text : String) (slideCount : Nat) : List GenPair :=
  { title := some "Summary of Your Text",
    content := some
      ["Based on the content you provided.",
       "First few words: \"" ++ text.take 30 ++ "...\""] }
  :: (List.range (slideCount - 1)).map mockTextTailSlide

/-- generatePresentationSlides: mock data without an API key, mock data when
the call throws, the parsed array when the response parses to an array, and
the empty list when it parses to a non-array. -/
def generatePresentationSlides (hasKey : Bool) (resp : GenResponse)
    (topic : String) (slideCount : Nat) : List GenPair :=
  if hasKey = false then getMockSlides topic slideCount
  else
    match resp with
    | GenResponse.threw => getMockSlides topic slideCount
    | GenResponse.parsed (JsonV.arrV pairs) => pairs
    | GenResponse.parsed JsonV.nonArr => []

/-- generateSlidesFromText, with the same shape as generatePresentationSlides
but text-flavoured mocks. -/
def generateSlidesFromText (hasKey : Bool) (resp : GenResponse)
    (text : String) (slideCount : Nat) : List GenPair :=
  if hasKey = false then getMockSlidesFromText text slideCount
  else
    match resp with
    | GenResponse.threw => getMockSlidesFromText text slideCount
    | GenResponse.parsed (JsonV.arrV pairs) => pairs
    | GenResponse.parsed JsonV.nonArr => []

/-- The whitespace-stripping done by `replace(/\s/g, "")`. -/
def sanitizeQuery (q : String) : String :=
  String.mk (q.toList.filter (fun c => !c.isWhitespace))

/-- generateImage: a seeded placeholder URL without an API key or on error,
otherwise the generated image wrapped as a data URI.  The image-generation
capability is abstracted by its outcome `imageGen`. -/
def generateImageM (hasKey : Bool) (imageGen : String → Except Unit String)
    (prompt : String) : String :=
  if hasKey = false then
    "https://picsum.photos/seed/" ++ sanitizeQuery prompt ++ "/1280/720"
  else
    match imageGen prompt with
    | Except.ok bytes => "data:image/jpeg;base64," ++ bytes
    | Except.error _ => "https://picsum.photos/seed/" ++ sanitizeQuery prompt ++ "/1280/720"

/-! ## The create-page generation pipeline (handleGenerate)

The pipeline is embedded as a pure function of the user inputs and an
environment holding the outcomes of the external capabilities; alongside the
result it returns the list of capability/network effects it performed, in
order, so that claims about "before any network call" are expressible. -/

/-- The content source selected on the create page. -/
inductive Source where
  | ai
  | text
  | file
deriving DecidableEq, Repr

/-- The image source selected on the create page. -/
inductive ImageMode where
  | aiImg
  | googleImg
  | noImg
deriving DecidableEq, Repr

/-- An uploaded file: its name, whether it is text/plain, and the text the
reader produces for it. -/
structure FileInfo where
  name : String
  isPlainText : Bool
  content : String
deriving DecidableEq, Repr

/-- The create-page form state feeding handleGenerate. -/
structure GenInputs where
  title : String
  textContent : String
  file : Option FileInfo
  numSlides : Nat
  imageMode : ImageMode
  theme : String
  userId : String
deriving DecidableEq, Repr

/-- Outcomes of the external capabilities consumed by the pipeline. -/
structure Env where
  hasKey : Bool
  genResp : GenResponse
  genRespText : GenResponse
  imageGen : String → Except Unit String
  googleFetch : Nat → String → Except Unit String
  nowIso : String

/-- An observable effect performed by the pipeline. -/
inductive Effect where
  | generatorCall
  | imageCall
  | saveCall
deriving DecidableEq, Repr

/-- Result of handleGenerate: a validation error shown to the user, the
generic failure of the outer catch, or a generated presentation. -/
inductive GenResult where
  | validationErr (msg : String)
  | genErr
  | ok (p : Presentation)
deriving DecidableEq, Repr

/-- The filename extension strip `replace(/\.[^/.]+$/, "")`. -/
def dropExtension (s : String) : String :=
  let cs := s.toList.reverse
  let ext := cs.takeWhile (fun c => c != '.' && c != '/')
  match cs.drop ext.length with
  | [] => s
  | c :: rest => if c = '.' ∧ ext ≠ [] then String.mk rest.reverse else s

/-- The per-pair slide assembly of handleGenerate, with the index used for
synthesized ids and an Except for a google-mode fetch that throws. -/
def buildSlidesE (env : Env) (mode : ImageMode) (presTitle now : String) :
    Nat → List GenPair → Except Unit (List Slide)
  | _, [] => Except.ok []
  | i, pr :: rest =>
    let prompt := jsOrOpt pr.title presTitle
    let bgE : Except Unit Background :=
      match mode with
      | ImageMode.noImg => Except.ok (Background.color "#FFFFFF")
      | ImageMode.aiImg =>
          Except.ok (Background.image (generateImageM env.hasKey env.imageGen prompt) none none)
      | ImageMode.googleImg =>
          match env.googleFetch i prompt with
          | Except.ok u => Except.ok (Background.image u none none)
          | Except.error e => Except.error e
    match bgE with
    | Except.error e => Except.error e
    | Except.ok bg =>
        match buildSlidesE env mode presTitle now (i + 1) rest with
        | Except.error e => Except.error e
        | Except.ok tail =>
            Except.ok
              ({ id := now ++ "-" ++ toString i,
                 title := jsOrOpt pr.title "Untitled Slide",
                 content := pr.content.getD [],
                 background := bg,
                 titleStyle := defaultTitleStyle,
                 contentStyle := defaultContentStyle } :: tail)

/-- The image-resolution effects of the slide mapping: one call per pair
unless no images were requested. -/
def imageEffects (mode : ImageMode) (n : Nat) : List Effect :=
  match mode with
  | ImageMode.noImg => []
  | _ => List.replicate n Effect.imageCall

/-- The post-validation part of handleGenerate: invoke the content generator,
assemble the slides and the presentation, and save. -/
def runPipeline (env : Env) (inp : GenInputs) (src : Source)
    (contentFG presTitle now : String) : GenResult × List Effect :=
  let slideContents :=
    match src with
    | Source.ai => generatePresentationSlides env.hasKey env.genResp contentFG inp.numSlides
    | _ => generateSlidesFromText env.hasKey env.genRespText contentFG inp.numSlides
  match buildSlidesE env inp.imageMode presTitle now 0 slideContents with
  | Except.error _ =>
      (GenResult.genErr,
       Effect.generatorCall :: imageEffects inp.imageMode slideContents.length)
  | Except.ok slides =>
      (GenResult.ok
        { id := now, userId := inp.userId, title := presTitle,
          slides := slides, theme := inp.theme, createdAt := env.nowIso },
       Effect.generatorCall ::
         (imageEffects inp.imageMode slideContents.length ++ [Effect.saveCall]))

/-- handleGenerate from the create page: validation of the chosen source
first (returning early with a user-visible message and no effects), then
content resolution, generation, slide assembly and save. -/
def handleGenerate (env : Env) (inp : GenInputs) (src : Source) (now : String) :
    GenResult × List Effect :=
  if jsTrim inp.title = "" ∧ src = Source.ai then
    (GenResult.validationErr "Presentation Title is required for AI generation.", [])
  else
    match src with
    | Source.text =>
        if jsTrim inp.textContent = "" then
          (GenResult.validationErr "Please provide content in the text area.", [])
        else
          runPipeline env inp src inp.textContent
            (if jsTrim inp.title = "" then inp.textContent.take 50 ++ "..." else jsTrim inp.title)
            now
    | Source.file =>
        match inp.file with
        | none => (GenResult.validationErr "Please upload a file.", [])
        | some f =>
            runPipeline env inp src
              (if f.isPlainText then f.content
               else "This presentation is about the contents of the file named: " ++ f.name)
              (if jsTrim inp.title = "" then dropExtension f.name else jsTrim inp.title)
              now
    | Source.ai => runPipeline env inp src inp.title (jsTrim inp.title) now

/-- The slide a pair maps to when no images are requested. -/
def mkPlainSlide (now : String) (i : Nat) (pr : GenPair) : Slide :=
  { id := now ++ "-" ++ toString i,
    title := jsOrOpt pr.title "Untitled Slide",
    content := pr.content.getD [],
    background := Background.color "#FFFFFF",
    titleStyle := defaultTitleStyle,
    contentStyle := defaultContentStyle }

/-- The backgrounds of the generated slides of a successful result. -/
def okSlideBackgrounds (r : GenResult) : List Background :=
  match r with
  | GenResult.ok p => p.slides.map Slide.background
  | _ => []

/-- The indexed slide mapping in the image-free case, written out as the
list buildSlidesE produces there. -/
def mkPlainSlidesFrom (now : String) : Nat → List GenPair → List Slide
  | _, [] => []
  | i, pr :: rest => mkPlainSlide now i pr :: mkPlainSlidesFrom now (i + 1) rest

/-! ## The editor's slide mutation engine (EditorPage) -/

/-- The editor session state: the working presentation and the cursor. -/
structure EditorState where
  pres : Presentation
  idx : Nat
deriving DecidableEq, Repr

/-- A partial slide update, as passed to updateSlide. -/
structure SlidePatch where
  id : Option String
  title : Option String
  content : Option (List String)
  background : Option Background
  titleStyle : Option TextStyle
  contentStyle : Option TextStyle
deriving DecidableEq, Repr

/-- The spread merge of a patch into a slide. -/
def applyPatch (s : Slide) (p : SlidePatch) : Slide :=
  { id := p.id.getD s.id,
    title := p.title.getD s.title,
    content := p.content.getD s.content,
    background := p.background.getD s.background,
    titleStyle := p.titleStyle.getD s.titleStyle,
    contentStyle := p.contentStyle.getD s.contentStyle }

/-- updateSlide on the slide array: merge the patch at position i if a slide
exists there, otherwise leave the array unchanged. -/
def setAt : List Slide → Nat → SlidePatch → List Slide
  | [], _, _ => []
  | s :: rest, 0, p => applyPatch s p :: rest
  | s :: rest, Nat.succ n, p => s :: setAt rest n p

/-- updateSlide on editor state. -/
def updateSlideE (st : EditorState) (i : Nat) (p : SlidePatch) : EditorState :=
  { st with pres := { st.pres with slides := setAt st.pres.slides i p } }

/-- A patch carrying only a new background. -/
def bgPatch (b : Background) : SlidePatch :=
  { id := none, title := none, content := none, background := some b,
    titleStyle := none, contentStyle := none }

/-- changeBackground: updateSlide of the current slide with only the
background field. -/
def changeBackground (st : EditorState) (b : Background) : EditorState :=
  updateSlideE st st.idx (bgPatch b)

/-- The fresh Image background the type-switch button passes to
changeBackground. -/
def imageButtonBackground (s : Slide) : Background :=
  Background.image ("https://picsum.photos/seed/" ++ s.id ++ "/1280/720") (some 1) (some 0)

/-- The filter `(_, index) => index !== cur` over the slide array, with the
running index made explicit. -/
def removeAt (cur : Nat) : Nat → List Slide → List Slide
  | _, [] => []
  | i, s :: rest =>
      if i = cur then removeAt cur (i + 1) rest else s :: removeAt cur (i + 1) rest

/-- deleteSlide: rejected when at most one slide remains; otherwise the
current slide is filtered out and the cursor clamped to the new last index. -/
def deleteSlide (st : EditorState) : EditorState :=
  if st.pres.slides.length ≤ 1 then st
  else
    let updated := removeAt st.idx 0 st.pres.slides
    { pres := { st.pres with slides := updated },
      idx := min st.idx (updated.length - 1) }

/-! ## Editor image search with provider fallback (handleImageSearch) -/

/-- The 12 deterministic placeholder URLs of the fallback provider. -/
def fallbackUrls (q : String) : List String :=
  (List.range 12).map
    (fun i => "https://picsum.photos/seed/" ++ sanitizeQuery q ++ toString i ++ "/400/300")

/-- Outcome of one search provider: it threw, or returned a URL list
(possibly empty). -/
inductive ProviderOutcome where
  | failed
  | succeeded (urls : List String)
deriving DecidableEq, Repr

/-- The provider loop: first non-empty success wins; failures and empty
results fall through to the next provider. -/
def searchLoop : List ProviderOutcome → Option (List String)
  | [] => none
  | ProviderOutcome.failed :: rest => searchLoop rest
  | ProviderOutcome.succeeded [] :: rest => searchLoop rest
  | ProviderOutcome.succeeded (u :: us) :: _ => some (u :: us)

/-- The user-observable outcome of handleImageSearch. -/
inductive SearchOutcome where
  | skipped
  | found (urls : List String)
  | reportedNoImages
deriving DecidableEq, Repr

/-- handleImageSearch: blank queries are ignored; otherwise the providers
are tried in order, the primary (SerpApi) first and the deterministic
placeholder provider second; all-failed is reported, not thrown. -/
def handleImageSearch (primary : ProviderOutcome) (q : String) : SearchOutcome :=
  if jsTrim q = "" then SearchOutcome.skipped
  else
    match searchLoop [primary, ProviderOutcome.succeeded (fallbackUrls q)] with
    | some urls => SearchOutcome.found urls
    | none => SearchOutcome.reportedNoImages

/-! ## The persistence adapter (apiService.ts)

The localStorage key "presentations" holds a serialized value: absent, a
non-array, or an array of entries each of which is junk (non-object or
missing id) or a record with optionally present fields.  The adapter's
defensive read cleans every record; slides are only coerced to an array,
never cleaned per-slide. -/

/-- A raw stored `slides` field at the adapter level. -/
inductive SlidesListF where
  | notArr
  | arr (slides : List Slide)
deriving DecidableEq, Repr

/-- A raw stored presentation record. -/
structure RawRec where
  id : Option String
  userId : Option String
  title : Option String
  slides : SlidesListF
  theme : Option String
  createdAt : Option String
deriving DecidableEq, Repr

/-- One element of the stored array. -/
inductive StoreEntry where
  | junk
  | entry (r : RawRec)
deriving DecidableEq, Repr

/-- The parsed value under the "presentations" key. -/
inductive StoreVal where
  | notList
  | list (entries : List StoreEntry)
deriving DecidableEq, Repr

/-- The store state: the key may be absent entirely. -/
abbrev StoreState := Option StoreVal

/-- JS truthiness of the stored id used by the filter. -/
def idTruthy (o : Option String) : Bool :=
  match o with
  | none => false
  | some s => s != ""

/-- The record-level cleaning of _getAndCleanPresentations. -/
def cleanRecord (r : RawRec) : Presentation :=
  { id := r.id.getD "",
    userId := jsOrOpt r.userId "unknown_user",
    title := jsOrOpt r.title "Untitled Presentation",
    slides :=
      match r.slides with
      | SlidesListF.arr l => l
      | SlidesListF.notArr => [],
    theme := jsOrOpt r.theme "Default",
    createdAt := jsOrOpt r.createdAt "1970-01-01T00:00:00.000Z" }

/-- _getAndCleanPresentations: missing key, parse failure or a non-array all
give the empty list; otherwise entries are filtered to objects with truthy
ids and cleaned. -/
def getAndCleanPresentations (store : StoreState) : List Presentation :=
  match store with
  | none => []
  | some StoreVal.notList => []
  | some (StoreVal.list entries) =>
      entries.filterMap (fun e =>
        match e with
        | StoreEntry.junk => none
        | StoreEntry.entry r => if idTruthy r.id then some (cleanRecord r) else none)

/-- Serialization of a presentation back into a stored entry. -/
def toEntry (p : Presentation) : StoreEntry :=
  StoreEntry.entry
    { id := some p.id, userId := some p.userId, title := some p.title,
      slides := SlidesListF.arr p.slides, theme := some p.theme,
      createdAt := some p.createdAt }

/-- getPresentation: first cleaned record with the given id. -/
def getPresentation (i : String) (store : StoreState) : Option Presentation :=
  (getAndCleanPresentations store).find? (fun p => p.id == i)

/-- The findIndex/replace-or-push of savePresentation: replace the first
record with the same id, else append. -/
def replaceById (p : Presentation) : List Presentation → List Presentation
  | [] => [p]
  | q :: rest => if q.id = p.id then p :: rest else q :: replaceById p rest

/-- savePresentation: load-and-clean, replace or append, store the result. -/
def savePresentation (p : Presentation) (store : StoreState) : StoreState :=
  some (StoreVal.list ((replaceById p (getAndCleanPresentations store)).map toEntry))

/-- deletePresentation: load-and-clean, drop every record with the id,
store the rest. -/
def deletePresentation (i : String) (store : StoreState) : StoreState :=
  some (StoreVal.list
    (((getAndCleanPresentations store).filter (fun p => p.id != i)).map toEntry))

/-- The fixpoint the adapter cleaning maps an already well-typed record to:
falsy string fields replaced by the documented defaults. -/
def cleanFix (p : Presentation) : Presentation :=
  { id := p.id,
    userId := jsOr p.userId "unknown_user",
    title := jsOr p.title "Untitled Presentation",
    slides := p.slides,
    theme := jsOr p.theme "Default",
    createdAt := jsOr p.createdAt "1970-01-01T00:00:00.000Z" }

/-! ## Concrete values used by counterexamples and witnesses -/

/-- A presentation whose id is the empty string (falsy in JS). -/
def emptyIdPres : Presentation :=
  { id := "", userId := "u1", title := "t1", slides := [], theme := "Default",
    createdAt := "2024-05-01T00:00:00.000Z" }

/-- An environment whose content generator returns the two pairs A and B. -/
def envAB : Env :=
  { hasKey := true,
    genResp := GenResponse.parsed (JsonV.arrV
      [{ title := some "A", content := some ["a1"] },
       { title := some "B", content := some ["b1"] }]),
    genRespText := GenResponse.threw,
    imageGen := fun _ => Except.error (),
    googleFetch := fun _ _ => Except.error (),
    nowIso := "2024-05-01T00:00:00.000Z" }

/-- Create-page inputs requesting no images. -/
def inpNoImg : GenInputs :=
  { title := "Ordering Demo", textContent := "", file := none, numSlides := 2,
    imageMode := ImageMode.noImg, theme := "Default", userId := "u1" }

/-- The two generator pairs of envAB. -/
def pairsAB : List GenPair :=
  [{ title := some "A", content := some ["a1"] },
   { title := some "B", content := some ["b1"] }]

/-- Create-page inputs with every source-specific field absent. -/
def inpEmpty : GenInputs :=
  { title := "", textContent := "   ", file := none, numSlides := 5,
    imageMode := ImageMode.noImg, theme := "Default", userId := "u1" }

/-- A presentation with a falsy userId but a truthy id, exercising the
adapter cleaning on the round trip. -/
def presW : Presentation :=
  { id := "p1", userId := "", title := "My Deck", slides := [], theme := "Default",
    createdAt := "2024-05-01T00:00:00.000Z" }

/-- A well-formed stored presentation with id "a". -/
def presKeepA : Presentation :=
  { id := "a", userId := "u1", title := "Deck A", slides := [], theme := "Default",
    createdAt := "2024-05-01T00:00:00.000Z" }

/-- A well-formed stored presentation with id "b". -/
def presKeepB : Presentation :=
  { id := "b", userId := "u2", title := "Deck B", slides := [], theme := "Black",
    createdAt := "2024-05-02T00:00:00.000Z" }

/-- A gradient-background slide for the editor-state witnesses. -/
def slide0 : Slide :=
  { id := "s0", title := "T0", content := ["c0"],
    background := Background.gradient "#ffffff" "#a0aec0" 90,
    titleStyle := defaultTitleStyle, contentStyle := defaultContentStyle }

/-- A second slide for the editor-state witnesses. -/
def slide1 : Slide :=
  { id := "s1", title := "T1", content := ["c1"],
    background := Background.color "#ffffff",
    titleStyle := defaultTitleStyle, contentStyle := defaultContentStyle }

/-- A two-slide editor session with the cursor on the first slide. -/
def st0 : EditorState :=
  { pres :=
      { id := "p0", userId := "u1", title := "P", slides := [slide0, slide1],
        theme := "Default", createdAt := "2024-05-01T00:00:00.000Z" },
    idx := 0 }

/-- A one-slide editor session. -/
def stOne : EditorState :=
  { pres :=
      { id := "p1", userId := "u1", title := "Q", slides := [slide0],
        theme := "Default", createdAt := "2024-05-01T00:00:00.000Z" },
    idx := 0 }

/-! ## Helper lemmas on the JS defaulting combinators -/

theorem jsOr_of_ne (s d : String) (h : s ≠ "") : jsOr s d = s := by
  simp [jsOr, h]

theorem jsOrOpt_ne_empty {d : String} (h : d ≠ "") (o : Option String) :
    jsOrOpt o d ≠ "" := by
  cases o with
  | none => exact h
  | some s =>
      simp only [jsOrOpt, jsOr]
      split
      · exact h
      · assumption

theorem jsOrOpt_absorb {d : String} (h : d ≠ "") (o : Option String) (d' : String) :
    jsOrOpt (some (jsOrOpt o d)) d' = jsOrOpt o d := by
  show jsOr (jsOrOpt o d) d' = jsOrOpt o d
  exact jsOr_of_ne _ _ (jsOrOpt_ne_empty h o)

theorem jsOrRatOpt_ne_zero {d : ℚ} (h : d ≠ 0) (o : Option ℚ) :
    jsOrRatOpt o d ≠ 0 := by
  cases o with
  | none => exact h
  | some x =>
      simp only [jsOrRatOpt]
      split
      · exact h
      · assumption

theorem jsOrRatOpt_absorb {d : ℚ} (h : d ≠ 0) (o : Option ℚ) (d' : ℚ) :
    jsOrRatOpt (some (jsOrRatOpt o d)) d' = jsOrRatOpt o d := by
  show (if jsOrRatOpt o d = 0 then d' else jsOrRatOpt o d) = jsOrRatOpt o d
  simp [jsOrRatOpt_ne_zero h o]

/-! ## Idempotence of the normalizer (claim C1) -/

theorem cleanBackground_idem (b : RawBackground) :
    cleanBackground (cleanBackground b) = cleanBackground b := by
  cases b with
  | absent => rfl
  | obj t v c1 c2 a o bl =>
      by_cases hi : t = "image"
      · subst hi
        simp [cleanBackground]
      · by_cases hg : t = "gradient"
        · subst hg
          simp [cleanBackground, jsOrOpt_absorb (by decide : ("#ffffff" : String) ≠ ""),
            jsOrOpt_absorb (by decide : ("#bbbbbb" : String) ≠ ""),
            jsOrRatOpt_absorb (by decide : (90 : ℚ) ≠ 0)]
        · simp [cleanBackground, hi, hg]

theorem mergeStyleRaw_idem (d : TextStyle) (o : Option RawStyle) :
    mergeStyleRaw d (some (mergeStyleRaw d o)) = mergeStyleRaw d o := by
  cases o <;> simp [mergeStyleRaw]

theorem cleanSlide_clean (t t' : String) (i i' : Nat) (s : RawSlide) :
    cleanSlide t' i' (cleanSlide t i s) = cleanSlide t i s := by
  have hid : (t ++ "-" ++ toString i) ≠ "" := by
    intro he
    have hlen : (t ++ "-" ++ toString i).length = 0 := by rw [he]; rfl
    rw [String.length_append, String.length_append] at hlen
    have h1 : ("-" : String).length = 1 := rfl
    omega
  have huid : ("Untitled Slide" : String) ≠ "" := by decide
  simp [cleanSlide, cleanBackground_idem, mergeStyleRaw_idem,
    jsOrOpt_absorb hid, jsOrOpt_absorb huid]

theorem cleanSlidesFrom_clean (t t' : String) :
    ∀ (l : List RawSlide) (i : Nat),
      cleanSlidesFrom t' i (cleanSlidesFrom t i l) = cleanSlidesFrom t i l
  | [], _ => rfl
  | s :: rest, i => by
      simp [cleanSlidesFrom, cleanSlide_clean, cleanSlidesFrom_clean t t' rest (i + 1)]

/-- C1: the document normalizer is idempotent.  For every raw input,
including a missing document, an empty object and an object whose slides
field is missing or not an array, and for any two synthesized-id seeds,
normalizing a normalized document yields the identical structure; in
particular an already-normalized presentation is returned unchanged. -/
theorem normalizeDoc_idempotent (t1 t2 : String) (x : Option RawPres) :
    normalizeDoc t2 (normalizeDoc t1 x) = normalizeDoc t1 x := by
  cases x with
  | none => rfl
  | some p =>
      simp [normalizeDoc, normalizeRaw, cleanSlidesFrom_clean]

/-! ## Background defaulting during normalization (claim C6) -/

/-- C6 counterexample: a stored Gradient background with the angle field
present and equal to 0 does not keep its angle; normalization replaces it
with 90, because the source uses falsy-or, not an absence check. -/
theorem cleanBackground_angle_zero_replaced :
    cleanBackground
        (RawBackground.obj "gradient" none (some "#123456") (some "#654321")
          (some 0) none none)
      = RawBackground.obj "gradient" none (some "#123456") (some "#654321")
          (some 90) none none
    ∧ RawBackground.obj "gradient" none (some "#123456") (some "#654321")
          (some 90) none none
      ≠ RawBackground.obj "gradient" none (some "#123456") (some "#654321")
          (some 0) none none := by
  constructor
  · decide
  · decide

/-- C6 (amended): normalization fixes backgrounds per variant.  An Image
background gets opacity 1 and blur 0 exactly when the field is absent
(present values, including 0, are preserved, as the source uses nullish
coalescing); a Gradient background gets color1 "#ffffff" / color2 "#bbbbbb"
when the field is absent or the empty string, and angle 90 when the field
is absent or 0 (so a present angle 0 is replaced). -/
theorem cleanBackground_variant_defaults (v c1 c2 : Option String)
    (a o bl : Option ℚ) :
    cleanBackground (RawBackground.obj "image" v c1 c2 a o bl)
      = RawBackground.obj "image" v c1 c2 a (some (o.getD 1)) (some (bl.getD 0))
    ∧ cleanBackground (RawBackground.obj "gradient" v c1 c2 a o bl)
      = RawBackground.obj "gradient" v (some (jsOrOpt c1 "#ffffff"))
          (some (jsOrOpt c2 "#bbbbbb")) (some (jsOrRatOpt a 90)) o bl := by
  constructor
  · rfl
  · simp [cleanBackground]

/-! ## deleteSlide (claim C7) -/

theorem removeAt_gt (cur : Nat) :
    ∀ (i : Nat) (l : List Slide), cur < i → removeAt cur i l = l
  | _, [], _ => rfl
  | i, s :: rest, h => by
      have hne : ¬ (i = cur) := by omega
      simp [removeAt, hne, removeAt_gt cur (i + 1) rest (by omega)]

theorem removeAt_succ (cur : Nat) :
    ∀ (i : Nat) (l : List Slide), removeAt (cur + 1) (i + 1) l = removeAt cur i l
  | _, [] => rfl
  | i, s :: rest => by
      have hiff : (i + 1 = cur + 1) ↔ (i = cur) := by omega
      simp [removeAt, hiff, removeAt_succ cur (i + 1) rest]

theorem removeAt_eq_eraseIdx : ∀ (cur : Nat) (l : List Slide),
    removeAt cur 0 l = l.eraseIdx cur
  | _, [] => by simp [removeAt]
  | 0, s :: rest => by
      simp [removeAt, removeAt_gt 0 1 rest (by omega)]
  | cur + 1, s :: rest => by
      simp [removeAt, removeAt_succ cur 0 rest, removeAt_eq_eraseIdx cur rest]

/-- C7: deleteSlide is rejected on a one-slide presentation, leaving the
slide count at 1; on a presentation with more than one slide and an
in-range cursor it removes the slide at the cursor index and afterwards the
cursor equals min(previous cursor, new length - 1), which is in range. -/
theorem deleteSlide_spec (st : EditorState) :
    (st.pres.slides.length = 1 → deleteSlide st = st) ∧
    (1 < st.pres.slides.length → st.idx < st.pres.slides.length →
      (deleteSlide st).pres.slides = st.pres.slides.eraseIdx st.idx ∧
      (deleteSlide st).pres.slides.length = st.pres.slides.length - 1 ∧
      (deleteSlide st).idx = min st.idx ((deleteSlide st).pres.slides.length - 1) ∧
      (deleteSlide st).idx < (deleteSlide st).pres.slides.length) := by
  constructor
  · intro h1
    simp [deleteSlide, h1]
  · intro hlen hidx
    have hnot : ¬ st.pres.slides.length ≤ 1 := by omega
    have he : removeAt st.idx 0 st.pres.slides = st.pres.slides.eraseIdx st.idx :=
      removeAt_eq_eraseIdx _ _
    have hlen' : (st.pres.slides.eraseIdx st.idx).length + 1 = st.pres.slides.length :=
      List.length_eraseIdx_add_one hidx
    refine ⟨?_, ?_, ?_, ?_⟩
    · simp [deleteSlide, hnot, he]
    · simp [deleteSlide, hnot, he]
      omega
    · simp [deleteSlide, hnot, he]
    · simp [deleteSlide, hnot, he]
      omega

/-- C7 witness: on the concrete two-slide session st0, deleting the first
slide leaves one slide and the cursor at 0; and on the one-slide session
stOne the operation is a no-op. -/
theorem deleteSlide_spec_witness :
    (deleteSlide stOne = stOne) ∧
    (deleteSlide st0).pres.slides = st0.pres.slides.eraseIdx st0.idx ∧
    (deleteSlide st0).pres.slides.length = st0.pres.slides.length - 1 ∧
    (deleteSlide st0).idx = min st0.idx ((deleteSlide st0).pres.slides.length - 1) ∧
    (deleteSlide st0).idx < (deleteSlide st0).pres.slides.length := by
  exact ⟨(deleteSlide_spec stOne).1 (by decide), (deleteSlide_spec st0).2 (by decide) (by decide)⟩

/-! ## changeBackground (claim C8) -/

theorem setAt_getElem_eq : ∀ (l : List Slide) (i : Nat) (p : SlidePatch),
    (setAt l i p)[i]? = (l[i]?).map (fun s => applyPatch s p)
  | [], i, _ => by cases i <;> simp [setAt]
  | _ :: _, 0, _ => by simp [setAt]
  | _ :: rest, n + 1, p => by simp [setAt, setAt_getElem_eq rest n p]

theorem setAt_getElem_ne : ∀ (l : List Slide) (i j : Nat) (p : SlidePatch),
    j ≠ i → (setAt l i p)[j]? = l[j]?
  | [], _, _, _, _ => by simp [setAt]
  | _ :: _, 0, j, _, h => by
      cases j with
      | zero => exact absurd rfl h
      | succ m => simp [setAt]
  | _ :: rest, n + 1, j, p, h => by
      cases j with
      | zero => simp [setAt]
      | succ m => simp [setAt, setAt_getElem_ne rest n m p (fun hh => h (by omega))]

/-- C8: changeBackground replaces only the background field of the current
slide, preserving its titleStyle, contentStyle and every other field, every
other slide, the presentation metadata and the cursor; and the background
the image type-switch button passes is a fresh Image default with opacity 1
and blur 0, carrying no gradient fields. -/
theorem changeBackground_spec (st : EditorState) (cs : Slide) (b : Background)
    (h : st.pres.slides[st.idx]? = some cs) :
    ((changeBackground st b).pres.slides[st.idx]? = some { cs with background := b }) ∧
    (∀ j : Nat, j ≠ st.idx →
      (changeBackground st b).pres.slides[j]? = st.pres.slides[j]?) ∧
    (changeBackground st b).pres.id = st.pres.id ∧
    (changeBackground st b).pres.userId = st.pres.userId ∧
    (changeBackground st b).pres.title = st.pres.title ∧
    (changeBackground st b).pres.theme = st.pres.theme ∧
    (changeBackground st b).pres.createdAt = st.pres.createdAt ∧
    (changeBackground st b).idx = st.idx ∧
    ((changeBackground st (imageButtonBackground cs)).pres.slides[st.idx]?
      = some { cs with background := imageButtonBackground cs }) ∧
    (imageButtonBackground cs
      = Background.image ("https://picsum.photos/seed/" ++ cs.id ++ "/1280/720")
          (some 1) (some 0)) ∧
    (∀ g1 g2 ang, imageButtonBackground cs ≠ Background.gradient g1 g2 ang) := by
  have hset : ∀ b' : Background,
      (changeBackground st b').pres.slides[st.idx]? = some { cs with background := b' } := by
    intro b'
    show (setAt st.pres.slides st.idx (bgPatch b'))[st.idx]? = _
    rw [setAt_getElem_eq, h]
    rfl
  refine ⟨hset b, ?_, rfl, rfl, rfl, rfl, rfl, rfl, hset _, rfl, ?_⟩
  · intro j hj
    exact setAt_getElem_ne _ _ _ _ hj
  · intro g1 g2 ang
    simp [imageButtonBackground]

/-- C8 witness: on the concrete session st0 (current slide slide0, a
gradient slide), changing the background to solid black patches only the
background of slide 0, leaves slide 1 untouched, and the image type-switch
value is the fresh Image default. -/
theorem changeBackground_spec_witness :
    ((changeBackground st0 (Background.color "#000000")).pres.slides[st0.idx]?
      = some { slide0 with background := Background.color "#000000" }) ∧
    (∀ j : Nat, j ≠ st0.idx →
      (changeBackground st0 (Background.color "#000000")).pres.slides[j]?
        = st0.pres.slides[j]?) ∧
    (changeBackground st0 (Background.color "#000000")).pres.id = st0.pres.id ∧
    (changeBackground st0 (Background.color "#000000")).pres.userId = st0.pres.userId ∧
    (changeBackground st0 (Background.color "#000000")).pres.title = st0.pres.title ∧
    (changeBackground st0 (Background.color "#000000")).pres.theme = st0.pres.theme ∧
    (changeBackground st0 (Background.color "#000000")).pres.createdAt
      = st0.pres.createdAt ∧
    (changeBackground st0 (Background.color "#000000")).idx = st0.idx ∧
    ((changeBackground st0 (imageButtonBackground slide0)).pres.slides[st0.idx]?
      = some { slide0 with background := imageButtonBackground slide0 }) ∧
    (imageButtonBackground slide0
      = Background.image ("https://picsum.photos/seed/" ++ slide0.id ++ "/1280/720")
          (some 1) (some 0)) ∧
    (∀ g1 g2 ang, imageButtonBackground slide0 ≠ Background.gradient g1 g2 ang) := by
  exact changeBackground_spec st0 slide0 (Background.color "#000000") (by rfl)

/-! ## Generator fallback (claim C2) -/

theorem append_ne_empty_left (s t : String) (h : s.length ≠ 0) : s ++ t ≠ "" := by
  intro he
  have h0 : (s ++ t).length = 0 := by rw [he]; rfl
  rw [String.length_append] at h0
  omega

/-- C2 counterexample: with an API key present and a generator response that
parses to valid JSON that is not an array (malformed data), the pipeline
returns the empty list instead of substituting the slideCount-slide
fallback. -/
theorem generateSlides_nonArray_empty :
    generatePresentationSlides true (GenResponse.parsed JsonV.nonArr) "Topic" 1 = []
    ∧ ¬ (generatePresentationSlides true (GenResponse.parsed JsonV.nonArr)
          "Topic" 1).length = 1 := by
  constructor
  · rfl
  · decide

/-- C2 (amended): the deterministic local fallback is substituted when the
generator call throws (request failure or unparsable response) or when no
API key is configured; in those cases the pipeline returns exactly
slideCount pairs for every slideCount ≥ 1, each with a non-empty title.  A
response that parses to a non-array instead yields the empty list, and a
parsed array is used as-is whatever its length. -/
theorem generateSlides_fallback_count (hasKey : Bool) (resp : GenResponse)
    (topic : String) (slideCount : Nat) (hc : 1 ≤ slideCount)
    (hfail : hasKey = false ∨ resp = GenResponse.threw) :
    (generatePresentationSlides hasKey resp topic slideCount).length = slideCount ∧
    ∀ pr ∈ generatePresentationSlides hasKey resp topic slideCount,
      ∃ t, pr.title = some t ∧ t ≠ "" := by
  have hmock : generatePresentationSlides hasKey resp topic slideCount
      = getMockSlides topic slideCount := by
    rcases hfail with h | h
    · subst h; rfl
    · subst h; cases hasKey <;> rfl
  rw [hmock]
  constructor
  · simp only [getMockSlides, List.length_cons, List.length_map, List.length_range]
    omega
  · intro pr hpr
    simp only [getMockSlides] at hpr
    rcases List.mem_cons.mp hpr with h | h
    · refine ⟨"Introduction to " ++ topic, ?_, ?_⟩
      · rw [h]
      · exact append_ne_empty_left _ _ (by decide)
    · rcases List.mem_map.mp h with ⟨k, _, hk⟩
      refine ⟨"Topic " ++ (toString (k + 1) ++ (" of " ++ topic)), ?_, ?_⟩
      · rw [← hk]
        rfl
      · exact append_ne_empty_left _ _ (by decide)

/-- C2 witness: a thrown generator call with slideCount 5 yields exactly 5
pairs with non-empty titles. -/
theorem generateSlides_fallback_count_witness :
    (generatePresentationSlides true GenResponse.threw "Energy" 5).length = 5 ∧
    ∀ pr ∈ generatePresentationSlides true GenResponse.threw "Energy" 5,
      ∃ t, pr.title = some t ∧ t ≠ "" :=
  generateSlides_fallback_count true GenResponse.threw "Energy" 5 (by decide) (Or.inr rfl)

/-! ## Validation before any capability call (claim C3) -/

/-- C3: when the required input for the chosen content source is absent
(whitespace-only title in ai mode, whitespace-only text in pasted-text
mode, no file in uploaded-file mode), handleGenerate returns the
corresponding user-visible validation error and its effect trace is empty:
no generator, image or save call is made. -/
theorem handleGenerate_validation (env : Env) (inp : GenInputs) (now : String) :
    (jsTrim inp.title = "" →
      handleGenerate env inp Source.ai now
        = (GenResult.validationErr "Presentation Title is required for AI generation.", [])) ∧
    (jsTrim inp.textContent = "" →
      handleGenerate env inp Source.text now
        = (GenResult.validationErr "Please provide content in the text area.", [])) ∧
    (inp.file = none →
      handleGenerate env inp Source.file now
        = (GenResult.validationErr "Please upload a file.", [])) := by
  refine ⟨?_, ?_, ?_⟩
  · intro h
    simp [handleGenerate, h]
  · intro h
    simp [handleGenerate, h]
  · intro h
    simp [handleGenerate, h]

/-- C3 witness: on inputs with a blank title, whitespace-only text and no
file, each source mode fails with its validation message and an empty
effect trace. -/
theorem handleGenerate_validation_witness :
    (handleGenerate envAB inpEmpty Source.ai "1000"
      = (GenResult.validationErr "Presentation Title is required for AI generation.", [])) ∧
    (handleGenerate envAB inpEmpty Source.text "1000"
      = (GenResult.validationErr "Please provide content in the text area.", [])) ∧
    (handleGenerate envAB inpEmpty Source.file "1000"
      = (GenResult.validationErr "Please upload a file.", [])) := by
  obtain ⟨h1, h2, h3⟩ := handleGenerate_validation envAB inpEmpty "1000"
  exact ⟨h1 (by decide), h2 (by decide), h3 rfl⟩

/-! ## Generation ordering with no images (claim C4) -/

theorem buildSlidesE_noImg (env : Env) (presTitle now : String) :
    ∀ (i : Nat) (pairs : List GenPair),
      buildSlidesE env ImageMode.noImg presTitle now i pairs
        = Except.ok (mkPlainSlidesFrom now i pairs)
  | _, [] => rfl
  | i, pr :: rest => by
      simp [buildSlidesE, mkPlainSlidesFrom, mkPlainSlide,
        buildSlidesE_noImg env presTitle now (i + 1) rest]

theorem mkPlainSlidesFrom_length (now : String) :
    ∀ (i : Nat) (pairs : List GenPair),
      (mkPlainSlidesFrom now i pairs).length = pairs.length
  | _, [] => rfl
  | i, pr :: rest => by
      simp [mkPlainSlidesFrom, mkPlainSlidesFrom_length now (i + 1) rest]

theorem mkPlainSlidesFrom_getElem (now : String) :
    ∀ (k j : Nat) (pairs : List GenPair),
      (mkPlainSlidesFrom now k pairs)[j]? = (pairs[j]?).map (mkPlainSlide now (k + j))
  | _, j, [] => by simp [mkPlainSlidesFrom]
  | k, 0, pr :: rest => by simp [mkPlainSlidesFrom]
  | k, j + 1, pr :: rest => by
      have hkj : k + 1 + j = k + (j + 1) := by omega
      simp [mkPlainSlidesFrom, mkPlainSlidesFrom_getElem now (k + 1) j rest, hkj]

/-- C4 counterexample: with generator pairs A and B and image mode none, the
backgrounds of the two generated slides are Color "#FFFFFF" (uppercase; the
create page uses a different literal from the editor), not Color "#ffffff"
as the claim states. -/
theorem generatedBackground_uppercase :
    okSlideBackgrounds (handleGenerate envAB inpNoImg Source.ai "1000").1
      = [Background.color "#FFFFFF", Background.color "#FFFFFF"] ∧
    Background.color "#FFFFFF" ≠ Background.color "#ffffff" := by
  constructor
  · rfl
  · decide

/-- C4 (amended): for every pair sequence returned by the content generator
and image mode none, the assembled presentation contains exactly one slide
per pair, in generator order with no reordering or deduplication — slide i
carries pair i's title (defaulted when falsy) and bullets — and every
slide's background is Color "#FFFFFF" (uppercase hex). -/
theorem handleGenerate_ordering (env : Env) (inp : GenInputs) (now : String)
    (pairs : List GenPair) (ht : jsTrim inp.title ≠ "") (hkey : env.hasKey = true)
    (hresp : env.genResp = GenResponse.parsed (JsonV.arrV pairs))
    (hmode : inp.imageMode = ImageMode.noImg) :
    ∃ p : Presentation,
      (handleGenerate env inp Source.ai now).1 = GenResult.ok p ∧
      p.slides.length = pairs.length ∧
      p.title = jsTrim inp.title ∧
      ∀ i : Nat, p.slides[i]? = (pairs[i]?).map (mkPlainSlide now i) := by
  have hcond : ¬ (jsTrim inp.title = "" ∧ Source.ai = Source.ai) := by
    intro hcontra
    exact ht hcontra.1
  have hgen : generatePresentationSlides env.hasKey env.genResp inp.title inp.numSlides
      = pairs := by
    rw [hkey, hresp]
    rfl
  have hstep : handleGenerate env inp Source.ai now
      = runPipeline env inp Source.ai inp.title (jsTrim inp.title) now := by
    show (if jsTrim inp.title = "" ∧ Source.ai = Source.ai
            then (GenResult.validationErr
              "Presentation Title is required for AI generation.", ([] : List Effect))
            else runPipeline env inp Source.ai inp.title (jsTrim inp.title) now)
        = runPipeline env inp Source.ai inp.title (jsTrim inp.title) now
    exact if_neg hcond
  refine ⟨{ id := now, userId := inp.userId, title := jsTrim inp.title,
            slides := mkPlainSlidesFrom now 0 pairs, theme := inp.theme,
            createdAt := env.nowIso }, ?_, ?_, rfl, ?_⟩
  · rw [hstep]
    simp only [runPipeline, hgen, hmode, buildSlidesE_noImg]
  · exact mkPlainSlidesFrom_length now 0 pairs
  · intro i
    have := mkPlainSlidesFrom_getElem now 0 i pairs
    simpa using this

/-- C4 witness: with the concrete pairs A and B and image mode none, the
generated presentation has two slides matching the pairs in order. -/
theorem handleGenerate_ordering_witness :
    ∃ p : Presentation,
      (handleGenerate envAB inpNoImg Source.ai "1000").1 = GenResult.ok p ∧
      p.slides.length = pairsAB.length ∧
      p.title = jsTrim inpNoImg.title ∧
      ∀ i : Nat, p.slides[i]? = (pairsAB[i]?).map (mkPlainSlide "1000" i) :=
  handleGenerate_ordering envAB inpNoImg "1000" pairsAB (by decide) rfl rfl rfl

/-! ## Image search provider fallback (claim C9) -/

theorem searchLoop_all_exhausted :
    ∀ outs : List ProviderOutcome,
      (∀ o ∈ outs, o = ProviderOutcome.failed ∨ o = ProviderOutcome.succeeded []) →
      searchLoop outs = none
  | [], _ => rfl
  | o :: rest, h => by
      rcases h o (List.mem_cons_self o rest) with ho | ho <;> subst ho <;>
        exact searchLoop_all_exhausted rest (fun x hx => h x (List.mem_cons_of_mem _ hx))

theorem searchLoop_first_nonempty :
    ∀ (pre : List ProviderOutcome) (us : List String) (post : List ProviderOutcome),
      us ≠ [] →
      (∀ o ∈ pre, o = ProviderOutcome.failed ∨ o = ProviderOutcome.succeeded []) →
      searchLoop (pre ++ ProviderOutcome.succeeded us :: post) = some us
  | [], us, post, hne, _ => by
      cases us with
      | nil => exact absurd rfl hne
      | cons u urest => rfl
  | o :: rest, us, post, hne, h => by
      rcases h o (List.mem_cons_self o rest) with ho | ho <;> subst ho <;>
        exact searchLoop_first_nonempty rest us post hne
          (fun x hx => h x (List.mem_cons_of_mem _ hx))

/-- C9: image search tries the providers in a fixed order with the primary
first: when the primary fails or returns empty, the result is exactly the
fallback provider's 12 URLs in order; in general the first provider
yielding a non-empty result wins; and when every provider fails or returns
empty the loop yields none, which handleImageSearch reports as "no images
found" rather than throwing. -/
theorem handleImageSearch_spec :
    (∀ q : String, jsTrim q ≠ "" →
      handleImageSearch ProviderOutcome.failed q
        = SearchOutcome.found (fallbackUrls q) ∧
      handleImageSearch (ProviderOutcome.succeeded []) q
        = SearchOutcome.found (fallbackUrls q) ∧
      (fallbackUrls q).length = 12) ∧
    (∀ (pre : List ProviderOutcome) (us : List String) (post : List ProviderOutcome),
      us ≠ [] →
      (∀ o ∈ pre, o = ProviderOutcome.failed ∨ o = ProviderOutcome.succeeded []) →
      searchLoop (pre ++ ProviderOutcome.succeeded us :: post) = some us) ∧
    (∀ outs : List ProviderOutcome,
      (∀ o ∈ outs, o = ProviderOutcome.failed ∨ o = ProviderOutcome.succeeded []) →
      searchLoop outs = none) := by
  refine ⟨?_, searchLoop_first_nonempty, searchLoop_all_exhausted⟩
  intro q hq
  have hlen : (fallbackUrls q).length = 12 := by
    simp [fallbackUrls]
  refine ⟨?_, ?_, hlen⟩
  · simp only [handleImageSearch, hq, if_false, fallbackUrls]
    rfl
  · simp only [handleImageSearch, hq, if_false, fallbackUrls]
    rfl

/-- C9 witness: for the query "office" the failing primary falls back to
the 12 placeholder URLs; a concrete three-provider loop returns the first
non-empty success; an all-exhausted loop returns none. -/
theorem handleImageSearch_spec_witness :
    (handleImageSearch ProviderOutcome.failed "office"
      = SearchOutcome.found (fallbackUrls "office") ∧
     handleImageSearch (ProviderOutcome.succeeded []) "office"
      = SearchOutcome.found (fallbackUrls "office") ∧
     (fallbackUrls "office").length = 12) ∧
    searchLoop [ProviderOutcome.failed, ProviderOutcome.succeeded ["u1"],
      ProviderOutcome.failed] = some ["u1"] ∧
    searchLoop [ProviderOutcome.failed, ProviderOutcome.succeeded []] = none := by
  obtain ⟨h1, h2, h3⟩ := handleImageSearch_spec
  refine ⟨h1 "office" (by decide), ?_, ?_⟩
  · exact h2 [ProviderOutcome.failed] ["u1"] [ProviderOutcome.failed]
      (by decide) (by decide)
  · exact h3 _ (by decide)

/-! ## Persistence round trip (claim C5) -/

theorem getAndClean_cons (p : Presentation) (rest : List StoreEntry) :
    getAndCleanPresentations (some (StoreVal.list (toEntry p :: rest)))
      = if p.id = "" then getAndCleanPresentations (some (StoreVal.list rest))
        else cleanFix p :: getAndCleanPresentations (some (StoreVal.list rest)) := by
  by_cases hp : p.id = ""
  · simp [getAndCleanPresentations, List.filterMap_cons, toEntry, idTruthy, hp]
  · simp [getAndCleanPresentations, List.filterMap_cons, toEntry, idTruthy, hp]
    rfl

/-- C5 counterexample: a presentation whose id is the empty string (a value
of the Presentation type, but falsy in JS) is filtered out by the adapter's
defensive read, so saving it and loading by its id returns absent rather
than its normalization. -/
theorem saveEmptyId_not_found :
    getPresentation emptyIdPres.id (savePresentation emptyIdPres none) = none ∧
    (none : Option Presentation) ≠ some (cleanFix emptyIdPres) := by
  constructor
  · rfl
  · simp

/-- C5 (amended): for every Presentation p with a non-empty id and every
prior store state, savePresentation p followed by getPresentation p.id
returns exactly the adapter's normalization of p: p with falsy userId,
title, theme and createdAt replaced by their documented defaults and id and
slides unchanged. -/
theorem savePresentation_roundtrip (p : Presentation) (store : StoreState)
    (hp : p.id ≠ "") :
    getPresentation p.id (savePresentation p store) = some (cleanFix p) := by
  show ((getAndCleanPresentations (some (StoreVal.list
      ((replaceById p (getAndCleanPresentations store)).map toEntry)))).find?
        (fun q => q.id == p.id)) = some (cleanFix p)
  generalize getAndCleanPresentations store = all
  induction all with
  | nil =>
      simp [replaceById, getAndClean_cons, hp, List.find?, cleanFix]
  | cons q rest ih =>
      simp only [replaceById]
      by_cases hq : q.id = p.id
      · rw [if_pos hq, List.map_cons, getAndClean_cons, if_neg hp]
        have hhead : ((cleanFix p).id == p.id) = true := by
          simp [cleanFix]
        simp [List.find?, hhead]
      · rw [if_neg hq, List.map_cons, getAndClean_cons]
        by_cases hq0 : q.id = ""
        · rw [if_pos hq0]
          exact ih
        · rw [if_neg hq0]
          have hhead : ((cleanFix q).id == p.id) = false :=
            beq_eq_false_iff_ne.mpr hq
          simpa [List.find?, hhead] using ih

/-- C5 witness: the concrete presentation presW (truthy id, falsy userId)
saved into an empty store and loaded back comes out with userId defaulted
and all else unchanged. -/
theorem savePresentation_roundtrip_witness :
    getPresentation presW.id (savePresentation presW none) = some (cleanFix presW) :=
  savePresentation_roundtrip presW none (by decide)

/-! ## deletePresentation (claim C10) -/

theorem getAndClean_fixed :
    ∀ l : List Presentation, (∀ p ∈ l, p.id ≠ "" ∧ cleanFix p = p) →
      getAndCleanPresentations (some (StoreVal.list (l.map toEntry))) = l
  | [], _ => rfl
  | p :: rest, h => by
      obtain ⟨hp, hfix⟩ := h p (List.mem_cons_self p rest)
      rw [List.map_cons, getAndClean_cons, if_neg hp,
        getAndClean_fixed rest (fun x hx => h x (List.mem_cons_of_mem _ hx)), hfix]

theorem find?_filter_self (i : String) :
    ∀ l : List Presentation,
      ((l.filter (fun p => p.id != i)).find? (fun p => p.id == i)) = none
  | [] => rfl
  | q :: rest => by
      by_cases hqi : q.id = i
      · simp [List.filter_cons, hqi, find?_filter_self i rest]
      · simp [List.filter_cons, hqi, List.find?, find?_filter_self i rest]

theorem find?_filter_ne (i target : String) (h : target ≠ i) :
    ∀ l : List Presentation,
      ((l.filter (fun p => p.id != i)).find? (fun p => p.id == target))
        = l.find? (fun p => p.id == target)
  | [] => rfl
  | q :: rest => by
      have ih := find?_filter_ne i target h rest
      by_cases hqi : q.id = i
      · have h1 : (q.id != i) = false := by simp [hqi]
        have h2 : (q.id == target) = false :=
          beq_eq_false_iff_ne.mpr (fun hc => h (hc.symm.trans hqi))
        simp [List.filter_cons, h1, List.find?, h2, ih]
      · have h1 : (q.id != i) = true := bne_iff_ne.mpr hqi
        by_cases hq : q.id = target
        · have h2 : (q.id == target) = true := by simp [hq]
          simp [List.filter_cons, h1, List.find?, h2]
        · have h2 : (q.id == target) = false := beq_eq_false_iff_ne.mpr hq
          simp [List.filter_cons, h1, List.find?, h2, ih]

/-- C10: for a store of well-formed presentation records, deletePresentation
removes exactly the records with the given id: afterwards loading that id
returns absent, and loading any stored presentation with a different id
returns exactly what it returned before the deletion. -/
theorem deletePresentation_spec (l : List Presentation) (i : String)
    (hwf : ∀ p ∈ l, p.id ≠ "" ∧ cleanFix p = p) :
    getPresentation i (deletePresentation i (some (StoreVal.list (l.map toEntry)))) = none ∧
    ∀ q ∈ l, q.id ≠ i →
      getPresentation q.id (deletePresentation i (some (StoreVal.list (l.map toEntry))))
        = getPresentation q.id (some (StoreVal.list (l.map toEntry))) := by
  have hl : getAndCleanPresentations (some (StoreVal.list (l.map toEntry))) = l :=
    getAndClean_fixed l hwf
  have hfl : getAndCleanPresentations
      (some (StoreVal.list ((l.filter (fun p => p.id != i)).map toEntry)))
      = l.filter (fun p => p.id != i) :=
    getAndClean_fixed _ (fun p hp => hwf p (List.mem_of_mem_filter hp))
  constructor
  · show ((getAndCleanPresentations (some (StoreVal.list
        (((getAndCleanPresentations (some (StoreVal.list (l.map toEntry)))).filter
          (fun p => p.id != i)).map toEntry)))).find? (fun p => p.id == i)) = none
    rw [hl, hfl]
    exact find?_filter_self i l
  · intro q hq hqi
    show ((getAndCleanPresentations (some (StoreVal.list
        (((getAndCleanPresentations (some (StoreVal.list (l.map toEntry)))).filter
          (fun p => p.id != i)).map toEntry)))).find? (fun p => p.id == q.id))
      = ((getAndCleanPresentations (some (StoreVal.list (l.map toEntry)))).find?
          (fun p => p.id == q.id))
    rw [hl, hfl]
    exact find?_filter_ne i q.id hqi l

/-- C10 witness: deleting id "a" from a store holding records "a" and "b"
leaves "a" absent while "b" loads exactly as before. -/
theorem deletePresentation_spec_witness :
    getPresentation "a" (deletePresentation "a"
      (some (StoreVal.list ([presKeepA, presKeepB].map toEntry)))) = none ∧
    ∀ q ∈ [presKeepA, presKeepB], q.id ≠ "a" →
      getPresentation q.id (deletePresentation "a"
        (some (StoreVal.list ([presKeepA, presKeepB].map toEntry))))
        = getPresentation q.id (some (StoreVal.list ([presKeepA, presKeepB].map toEntry))) :=
  deletePresentation_spec [presKeepA, presKeepB] "a" (by decide)

end SlideForge
